import Mathlib

/-!
# Verification of the nasa-agrosim crop-yield prediction core

A shallow embedding, over `ℚ`, of the yield-prediction pipeline of the
`nasa-agrosim` backend:

* `src/backend/app/ml/feature_engineering.py` (`FeatureEngineer`,
  `create_prediction_features`),
* `src/backend/app/ml/yield_predictor.py` (`YieldPredictor.train`,
  `predict`, `_analyze_risk_factors`, `_generate_recommendations`,
  `save`/`load`),
* `src/backend/app/ml/data_generator.py` (`CROP_PARAMETERS`),
* the crop validation of `src/backend/app/api/ml_prediction.py`.

Machine floats are modelled as exact rationals.  The transcendental
kernels used inside feature engineering (`np.sqrt` inside `np.std`,
`np.exp`, `np.log1p`, `np.sin`, `np.cos` and the constant `π`) are
packaged into a `NumOps` record of rational functions, so that every
definition stays executable; theorems that need a specific fact about a
kernel (e.g. `sqrt 0 = 0`) take it as an explicit hypothesis.
-/

namespace NasaAgroSim

/-- The numeric kernels used by the pipeline, abstracted as rational
functions: `sqrt` (inside `np.std`), `exp`, `log1p`, `sin`, `cos` and the
constant `pi`. -/
structure NumOps where
  sqrt : ℚ → ℚ
  exp : ℚ → ℚ
  log1p : ℚ → ℚ
  sin : ℚ → ℚ
  cos : ℚ → ℚ
  pi : ℚ

/-- A concrete instantiation of the numeric kernels, used to evaluate the
pipeline at concrete inputs (all witnesses below only ever need
`sqrt 0 = 0`, which holds for `id`). -/
def qops : NumOps :=
  { sqrt := id, exp := id, log1p := id, sin := id, cos := id, pi := 0 }

/-- Column mean, as `np.mean` computes it. -/
def colMean (xs : List ℚ) : ℚ := xs.sum / (xs.length : ℚ)

/-- Column standard deviation, as `np.std` computes it (population form:
square root of the mean squared deviation). -/
def colStd (ops : NumOps) (xs : List ℚ) : ℚ :=
  ops.sqrt (colMean (xs.map (fun x => (x - colMean xs) ^ 2)))

/-- The `1e-8` guard added to the standard deviation before dividing
(`feature_engineering.py` lines 45 and 164). -/
def eps : ℚ := 1 / 100000000

/-- The `self.scalers` dictionary of `FeatureEngineer`: feature name to
`(mean, std)`, with Python-dict assignment semantics. -/
def Scalers : Type := List (String × (ℚ × ℚ))

/-- Python dict assignment `scalers[name] = value`: replace an existing
binding in place, otherwise append. -/
def setScaler (s : Scalers) (k : String) (v : ℚ × ℚ) : Scalers :=
  match s with
  | [] => [(k, v)]
  | (k0, v0) :: rest =>
      if k0 = k then (k, v) :: rest else (k0, v0) :: setScaler rest k v

/-- Python dict lookup `scalers.get(name)`. -/
def getScaler (s : Scalers) (k : String) : Option (ℚ × ℚ) :=
  match s with
  | [] => none
  | (k0, v0) :: rest => if k0 = k then some v0 else getScaler rest k

/-- Embeds `FeatureEngineer._normalize` (lines 160-164): compute the column mean
and std, store them in the scalers under `name`, and return the column
standardized by the stored parameters (with the `1e-8` guard).  The
inlined normalization of the basic climate columns (lines 40-47) has the
same shape, so it is embedded through this single helper as well. -/
def normalizeStore (ops : NumOps) (s : Scalers) (k : String) (values : List ℚ) :
    Scalers × List ℚ :=
  let m := colMean values
  let sd := colStd ops values
  (setScaler s k (m, sd), values.map (fun v => (v - m) / (sd + eps)))

/-- A tabular input to the feature engineer, column-major.  This models the
frames actually fed to `fit_transform`/`transform` in this repository
(`generate_training_data`, `fetch_real_training_data` and
`create_prediction_features` all produce every one of these columns, so
each `if col in df.columns` branch of `fit_transform` is taken). -/
structure DataFrame where
  crop_id : List ℚ
  temp_avg : List ℚ
  temp_min : List ℚ
  temp_max : List ℚ
  precipitation : List ℚ
  humidity : List ℚ
  solar_radiation : List ℚ
  wind_speed : List ℚ
  latitude : List ℚ
  longitude : List ℚ
  month : List ℚ
  soil_quality : List ℚ
  growing_days : List ℚ

/-- The mutable state of a `FeatureEngineer` (its `__init__`, lines 26-29). -/
structure FeatureEngineer where
  feature_names : List String
  scalers : Scalers
  fitted : Bool

/-- A freshly constructed `FeatureEngineer()`. -/
def engineer0 : FeatureEngineer :=
  { feature_names := [], scalers := [], fitted := false }

/-- The result of `fit_transform`/`transform`: the feature matrix
(column-major: one list per feature, in source order) and the feature
names.  The `metadata` dict of the Python `FeatureSet` is derived data and
is not modelled. -/
structure FeatureSet where
  features : List (List ℚ)
  feature_names : List String

/-- The fixed feature-name list produced by `fit_transform` when every
source column is present, in source order. -/
def allFeatureNames : List String :=
  ["temp_avg", "temp_min", "temp_max", "precipitation", "humidity",
   "solar_radiation", "wind_speed", "diurnal_temp_range",
   "heat_stress_index", "cold_stress_index", "water_availability_index",
   "drought_stress", "gdd_base_10", "gdd_base_5",
   "photosynthetic_radiation", "temp_precip_interaction",
   "vapor_pressure_deficit", "crop_id", "lat_sin", "lat_cos",
   "month_sin", "month_cos", "soil_quality", "growing_days_norm"]

/-- Embeds `FeatureEngineer.fit_transform` (lines 31-151).  Every scaler update is
threaded in source order; standardized columns go through
`normalizeStore`, the others are emitted raw exactly as in the source. -/
def fitTransform (ops : NumOps) (fe : FeatureEngineer) (df : DataFrame) :
    FeatureEngineer × FeatureSet :=
  -- 1. basic climate features (standardized, scaler key = column name)
  let r1 := normalizeStore ops fe.scalers "temp_avg" df.temp_avg
  let r2 := normalizeStore ops r1.1 "temp_min" df.temp_min
  let r3 := normalizeStore ops r2.1 "temp_max" df.temp_max
  let r4 := normalizeStore ops r3.1 "precipitation" df.precipitation
  let r5 := normalizeStore ops r4.1 "humidity" df.humidity
  let r6 := normalizeStore ops r5.1 "solar_radiation" df.solar_radiation
  let r7 := normalizeStore ops r6.1 "wind_speed" df.wind_speed
  -- 2. temperature-derived features
  let dtr := List.zipWith (fun a b => a - b) df.temp_max df.temp_min
  let r8 := normalizeStore ops r7.1 "dtr" dtr
  let heatStress := df.temp_avg.map (fun t => max 0 (t - 30))
  let coldStress := df.temp_avg.map (fun t => max 0 (5 - t))
  -- 3. water-related features
  let waterIndex :=
    List.zipWith (fun p h => p * (7/10) + h * (3/10)) df.precipitation df.humidity
  let r9 := normalizeStore ops r8.1 "water_index" waterIndex
  let droughtStress := df.precipitation.map (fun p => max 0 (50 - p) / 50)
  -- 4. growing degree days
  let gdd10 := df.temp_avg.map (fun t => max 0 (t - 10))
  let r10 := normalizeStore ops r9.1 "gdd_10" gdd10
  let gdd5 := df.temp_avg.map (fun t => max 0 (t - 5))
  let r11 := normalizeStore ops r10.1 "gdd_5" gdd5
  -- 5. solar features
  let par := df.solar_radiation.map (fun s => s * (48/100))
  let r12 := normalizeStore ops r11.1 "par" par
  -- 6. interaction features
  let tpInt :=
    List.zipWith (fun t p => t * ops.log1p p) df.temp_avg df.precipitation
  let r13 := normalizeStore ops r12.1 "tp_int" tpInt
  let vpd :=
    List.zipWith
      (fun h t => (100 - h) * (1/100) * ops.exp ((1727/100) * t / (t + 2373/10)))
      df.humidity df.temp_avg
  let r14 := normalizeStore ops r13.1 "vpd" vpd
  -- 7. crop encoding (raw)
  let cropCol := df.crop_id
  -- 8. location features (np.radians then sin/cos)
  let latSin := df.latitude.map (fun l => ops.sin (l * ops.pi / 180))
  let latCos := df.latitude.map (fun l => ops.cos (l * ops.pi / 180))
  -- 9. seasonal features
  let monthSin := df.month.map (fun m => ops.sin (2 * ops.pi * m / 12))
  let monthCos := df.month.map (fun m => ops.cos (2 * ops.pi * m / 12))
  -- 10. soil and management features
  let soilCol := df.soil_quality
  let r15 := normalizeStore ops r14.1 "grow_days" df.growing_days
  ({ feature_names := allFeatureNames, scalers := r15.1, fitted := true },
   { features :=
      [r1.2, r2.2, r3.2, r4.2, r5.2, r6.2, r7.2, r8.2, heatStress,
       coldStress, r9.2, droughtStress, r10.2, r11.2, r12.2, r13.2, r14.2,
       cropCol, latSin, latCos, monthSin, monthCos, soilCol, r15.2],
     feature_names := allFeatureNames })

/-- The error raised by `transform` when the engineer is not fitted
(the `ValueError` of line 156). -/
inductive FEError where
  | notFitted
deriving DecidableEq

/-- Embeds `FeatureEngineer.transform` (lines 153-158): raise when not fitted,
otherwise run `fit_transform` again on the new data ("Use same logic for
now"). -/
def transform (ops : NumOps) (fe : FeatureEngineer) (df : DataFrame) :
    Except FEError (FeatureEngineer × FeatureSet) :=
  if fe.fitted then Except.ok (fitTransform ops fe df)
  else Except.error FEError.notFitted

/-- Claim C9: For every input table, calling `transform` on a
`FeatureEngineer` that has never been fitted fails with the NotFitted
error and returns no feature matrix. -/
theorem C9_transform_before_fit_fails (ops : NumOps) (df : DataFrame) :
    transform ops engineer0 df = Except.error FEError.notFitted := by
  simp [transform, engineer0]

/-! ## Crop parameter table (`data_generator.py`, `CROP_PARAMETERS`) -/

/-- One entry of `CROP_PARAMETERS` (only the fields the prediction core
reads; the synthetic-generator fields `base_yield`, `yield_std`,
`temp_sensitivity`, `water_sensitivity` are not consumed by the claims
under verification). -/
structure CropParams where
  optimal_temp : ℚ × ℚ
  temp_range : ℚ × ℚ
  water_need : ℚ × ℚ
  growing_days : ℚ × ℚ
  frost_tolerance : ℚ
  heat_tolerance : ℚ
deriving DecidableEq

def wheatParams : CropParams :=
  { optimal_temp := (15, 20), temp_range := (3, 35), water_need := (450, 650),
    growing_days := (100, 130), frost_tolerance := -5, heat_tolerance := 32 }

def cornParams : CropParams :=
  { optimal_temp := (20, 30), temp_range := (10, 40), water_need := (500, 800),
    growing_days := (90, 120), frost_tolerance := 0, heat_tolerance := 38 }

def riceParams : CropParams :=
  { optimal_temp := (25, 35), temp_range := (15, 40), water_need := (1200, 2000),
    growing_days := (110, 150), frost_tolerance := 10, heat_tolerance := 40 }

def soybeanParams : CropParams :=
  { optimal_temp := (20, 30), temp_range := (10, 40), water_need := (450, 700),
    growing_days := (80, 120), frost_tolerance := 2, heat_tolerance := 35 }

def potatoParams : CropParams :=
  { optimal_temp := (15, 20), temp_range := (7, 30), water_need := (500, 700),
    growing_days := (90, 120), frost_tolerance := -2, heat_tolerance := 28 }

def cottonParams : CropParams :=
  { optimal_temp := (25, 35), temp_range := (15, 45), water_need := (700, 1300),
    growing_days := (150, 180), frost_tolerance := 5, heat_tolerance := 42 }

def sugarcaneParams : CropParams :=
  { optimal_temp := (25, 35), temp_range := (15, 40), water_need := (1500, 2500),
    growing_days := (270, 365), frost_tolerance := 5, heat_tolerance := 40 }

/-- Key lookup in the `CROP_PARAMETERS` dict, in its literal key order
(wheat, corn, rice, soybean, potato, cotton, sugarcane). -/
def cropParamsGet (crop : String) : Option CropParams :=
  if crop = "wheat" then some wheatParams
  else if crop = "corn" then some cornParams
  else if crop = "rice" then some riceParams
  else if crop = "soybean" then some soybeanParams
  else if crop = "potato" then some potatoParams
  else if crop = "cotton" then some cottonParams
  else if crop = "sugarcane" then some sugarcaneParams
  else none

/-- Embeds `CROP_PARAMETERS.get(crop, CROP_PARAMETERS["wheat"])`
(`yield_predictor.py` line 443): unknown crops silently fall back to the
wheat parameters. -/
def cropParamsOrWheat (crop : String) : CropParams :=
  (cropParamsGet crop).getD wheatParams

/-- Embeds `crops.index(crop) if crop in crops else 0`
(`feature_engineering.py` line 218): the integer crop code, with unknown
crops silently mapped to 0 (wheat's index). -/
def cropIndex (crop : String) : ℕ :=
  if crop = "wheat" then 0
  else if crop = "corn" then 1
  else if crop = "rice" then 2
  else if crop = "soybean" then 3
  else if crop = "potato" then 4
  else if crop = "cotton" then 5
  else if crop = "sugarcane" then 6
  else 0

/-- The scalar inputs of one prediction scenario (the arguments of
`YieldPredictor.predict` that flow into `create_prediction_features`). -/
structure Scenario where
  temp_avg : ℚ
  temp_min : ℚ
  temp_max : ℚ
  precipitation : ℚ
  humidity : ℚ
  solar_radiation : ℚ
  latitude : ℚ
  longitude : ℚ
  month : ℚ
  growing_days : ℚ
  soil_quality : ℚ
  wind_speed : ℚ

/-- Embeds `create_prediction_features` (lines 197-234) followed by
`pd.DataFrame([feature_dict])` (line 305 of `yield_predictor.py`): the
single-row frame `predict` feeds to `transform`. -/
def createPredictionFeatures (crop : String) (sc : Scenario) : DataFrame :=
  { crop_id := [(cropIndex crop : ℚ)],
    temp_avg := [sc.temp_avg],
    temp_min := [sc.temp_min],
    temp_max := [sc.temp_max],
    precipitation := [sc.precipitation],
    humidity := [sc.humidity],
    solar_radiation := [sc.solar_radiation],
    wind_speed := [sc.wind_speed],
    latitude := [sc.latitude],
    longitude := [sc.longitude],
    month := [sc.month],
    soil_quality := [sc.soil_quality],
    growing_days := [sc.growing_days] }

/-! ## C2: on a single-row frame every standardized feature is exactly 0 -/

theorem colMean_single (x : ℚ) : colMean [x] = x := by
  simp [colMean]

theorem colStd_single (ops : NumOps) (h : ops.sqrt 0 = 0) (x : ℚ) :
    colStd ops [x] = 0 := by
  simp [colStd, colMean_single, colMean, h]

/-- On a one-element column, `_normalize` stores `(x, 0)` and returns
`[0]`: the mean of a single value is that value and its std is 0, so the
standardized value is `0 / (0 + 1e-8) = 0`. -/
theorem normalizeStore_single (ops : NumOps) (h : ops.sqrt 0 = 0)
    (s : Scalers) (k : String) (x : ℚ) :
    normalizeStore ops s k [x] = (setScaler s k (x, 0), [0]) := by
  simp [normalizeStore, colMean_single, colStd_single ops h]

/-- Claim C2: For every single-row input frame (the shape `predict` builds
for one scenario), `transform` succeeds on a fitted engineer and every
standardized feature column equals exactly `[0]`, regardless of the
scenario's raw values; only the unstandardized features (heat/cold
stress, drought stress, crop_id, latitude and month sine/cosine,
soil quality) carry the scenario's information. -/
theorem C2_single_row_standardized_features_vanish
    (ops : NumOps) (h : ops.sqrt 0 = 0) (fe : FeatureEngineer)
    (hfit : fe.fitted = true) (crop : String) (sc : Scenario) :
    ∃ fe1, transform ops fe (createPredictionFeatures crop sc) =
      Except.ok (fe1,
        { features :=
            [[0], [0], [0], [0], [0], [0], [0], [0],
             [max 0 (sc.temp_avg - 30)], [max 0 (5 - sc.temp_avg)],
             [0], [max 0 (50 - sc.precipitation) / 50], [0], [0], [0], [0], [0],
             [(cropIndex crop : ℚ)],
             [ops.sin (sc.latitude * ops.pi / 180)],
             [ops.cos (sc.latitude * ops.pi / 180)],
             [ops.sin (2 * ops.pi * sc.month / 12)],
             [ops.cos (2 * ops.pi * sc.month / 12)],
             [sc.soil_quality], [0]],
          feature_names := allFeatureNames }) := by
  refine ⟨(fitTransform ops fe (createPredictionFeatures crop sc)).1, ?_⟩
  simp only [transform, hfit, if_true]
  congr 1
  ext1
  · rfl
  · simp only [fitTransform, createPredictionFeatures,
      normalizeStore_single ops h, List.zipWith, List.map]

/-- Witness for C2 at a concrete scenario. -/
theorem C2_witness :
    ∃ fe1, transform qops
        { feature_names := allFeatureNames, scalers := [], fitted := true }
        (createPredictionFeatures "corn"
          { temp_avg := 25, temp_min := 15, temp_max := 35, precipitation := 80,
            humidity := 60, solar_radiation := 20, latitude := 40,
            longitude := -90, month := 6, growing_days := 100,
            soil_quality := 7/10, wind_speed := 5 }) =
      Except.ok (fe1,
        { features :=
            [[0], [0], [0], [0], [0], [0], [0], [0],
             [max 0 ((25 : ℚ) - 30)], [max 0 (5 - (25 : ℚ))],
             [0], [max 0 (50 - (80 : ℚ)) / 50], [0], [0], [0], [0], [0],
             [(cropIndex "corn" : ℚ)],
             [qops.sin ((40 : ℚ) * qops.pi / 180)],
             [qops.cos ((40 : ℚ) * qops.pi / 180)],
             [qops.sin (2 * qops.pi * (6 : ℚ) / 12)],
             [qops.cos (2 * qops.pi * (6 : ℚ) / 12)],
             [(7/10 : ℚ)], [0]],
          feature_names := allFeatureNames }) :=
  C2_single_row_standardized_features_vanish qops rfl
    { feature_names := allFeatureNames, scalers := [], fitted := true }
    rfl "corn"
    { temp_avg := 25, temp_min := 15, temp_max := 35, precipitation := 80,
      humidity := 60, solar_radiation := 20, latitude := 40,
      longitude := -90, month := 6, growing_days := 100,
      soil_quality := 7/10, wind_speed := 5 }

/-! ## C1: `transform` re-estimates the normalization parameters -/

/-- A two-row training frame whose columns are all constant at 10:
fitting stores `(mean, std) = (10, 0)` for every scaled feature. -/
def dfFitC1 : DataFrame :=
  { crop_id := [10, 10], temp_avg := [10, 10], temp_min := [10, 10],
    temp_max := [10, 10], precipitation := [10, 10], humidity := [10, 10],
    solar_radiation := [10, 10], wind_speed := [10, 10],
    latitude := [10, 10], longitude := [10, 10], month := [10, 10],
    soil_quality := [10, 10], growing_days := [10, 10] }

/-- A one-row inference frame whose raw `temp_avg` is 20. -/
def dfNewC1 : DataFrame :=
  { crop_id := [20], temp_avg := [20], temp_min := [20], temp_max := [20],
    precipitation := [20], humidity := [20], solar_radiation := [20],
    wind_speed := [20], latitude := [20], longitude := [20], month := [20],
    soil_quality := [20], growing_days := [20] }

/-- Claim C1, failing input: After fitting on `dfFitC1` the engineer stores
`(10, 0)` as `temp_avg`'s (mean, std).  Calling `transform` on the one-row
frame `dfNewC1` then (a) overwrites the stored parameter with `(20, 0)`
re-estimated from the new input, and (b) returns `0` for the `temp_avg`
feature, whereas applying the stored fit-time parameters would return
`(20 - 10) / (0 + 1e-8) = 10^9 ≠ 0`.  This contradicts `transform`'s own
docstring ("Transform new data using fitted parameters"); the body calls
`fit_transform` again ("Use same logic for now"). -/
theorem C1_transform_reestimates_at_failing_input :
    getScaler (fitTransform qops engineer0 dfFitC1).1.scalers "temp_avg" =
        some (10, 0)
      ∧ (transform qops (fitTransform qops engineer0 dfFitC1).1
            dfNewC1).toOption.map (fun r => getScaler r.1.scalers "temp_avg") =
          some (some (20, 0))
      ∧ (transform qops (fitTransform qops engineer0 dfFitC1).1
            dfNewC1).toOption.map (fun r => r.2.features.head?) =
          some (some [0])
      ∧ ((20 : ℚ) - 10) / (0 + eps) ≠ 0 := by
  refine ⟨?_, ?_, ?_, by norm_num [eps]⟩ <;>
    norm_num [fitTransform, normalizeStore, colMean, colStd, setScaler,
      getScaler, transform, Except.toOption, eps, dfFitC1, dfNewC1,
      engineer0, qops]

/-! ## C10: repeated `transform` is deterministic -/

/-- The feature matrix produced by `fit_transform` does not depend on the
engineer state it starts from: the scalers are overwritten, never read. -/
theorem fitTransform_features_state_independent
    (ops : NumOps) (fe fe' : FeatureEngineer) (df : DataFrame) :
    (fitTransform ops fe df).2 = (fitTransform ops fe' df).2 := rfl

/-- Claim C10: For every fitted state and input frame, running `transform`
twice in sequence on the same input (the second call starting from the
state the first call produced) yields identical feature sets: `transform`
is deterministic, with no randomness source (the bootstrap noise lives in
`predict` only). -/
theorem C10_transform_deterministic
    (ops : NumOps) (fe : FeatureEngineer) (df : DataFrame)
    (hfit : fe.fitted = true) :
    ∃ fe1 fs, transform ops fe df = Except.ok (fe1, fs) ∧
      transform ops fe1 df =
        Except.ok ((fitTransform ops fe1 df).1, fs) := by
  refine ⟨(fitTransform ops fe df).1, (fitTransform ops fe df).2, ?_, ?_⟩
  · simp [transform, hfit]
  · have h1 : (fitTransform ops fe df).1.fitted = true := rfl
    simp only [transform, h1, if_true]
    rw [fitTransform_features_state_independent ops fe
      (fitTransform ops fe df).1 df]

/-- Witness for C10 at a concrete fitted engineer and frame. -/
theorem C10_witness :
    ∃ fe1 fs, transform qops
        { feature_names := allFeatureNames, scalers := [], fitted := true }
        dfNewC1 = Except.ok (fe1, fs) ∧
      transform qops fe1 dfNewC1 =
        Except.ok ((fitTransform qops fe1 dfNewC1).1, fs) :=
  C10_transform_deterministic qops
    { feature_names := allFeatureNames, scalers := [], fitted := true }
    dfNewC1 rfl

/-! ## Python `round`, modelled exactly on rationals -/

/-- Round to the nearest integer, ties to even: the exact semantics of
Python's `round` on our rational embedding of floats. -/
def roundHalfEven (q : ℚ) : ℤ :=
  if q - ⌊q⌋ < 1/2 then ⌊q⌋
  else if 1/2 < q - ⌊q⌋ then ⌊q⌋ + 1
  else if 2 ∣ ⌊q⌋ then ⌊q⌋ else ⌊q⌋ + 1

/-- Python's `round(q, 2)`. -/
def round2 (q : ℚ) : ℚ := (roundHalfEven (q * 100) : ℚ) / 100

theorem roundHalfEven_le (q : ℚ) : roundHalfEven q ≤ ⌊q⌋ + 1 := by
  unfold roundHalfEven; split_ifs <;> omega

theorem le_roundHalfEven (q : ℚ) : ⌊q⌋ ≤ roundHalfEven q := by
  unfold roundHalfEven; split_ifs <;> omega

theorem roundHalfEven_mono {x y : ℚ} (h : x ≤ y) :
    roundHalfEven x ≤ roundHalfEven y := by
  rcases lt_or_le ⌊x⌋ ⌊y⌋ with hf | hf
  · calc roundHalfEven x ≤ ⌊x⌋ + 1 := roundHalfEven_le x
      _ ≤ ⌊y⌋ := by omega
      _ ≤ roundHalfEven y := le_roundHalfEven y
  · have hfe : ⌊x⌋ = ⌊y⌋ := le_antisymm (Int.floor_le_floor h) hf
    have hd : x - (⌊y⌋ : ℚ) ≤ y - (⌊y⌋ : ℚ) := by linarith
    unfold roundHalfEven
    rw [hfe]
    split_ifs <;> first | omega | linarith

theorem round2_mono {x y : ℚ} (h : x ≤ y) : round2 x ≤ round2 y := by
  unfold round2
  have h1 : roundHalfEven (x * 100) ≤ roundHalfEven (y * 100) :=
    roundHalfEven_mono (by linarith)
  have h2 : ((roundHalfEven (x * 100) : ℚ)) ≤ (roundHalfEven (y * 100) : ℚ) := by
    exact_mod_cast h1
  linarith

theorem round2_zero : round2 0 = 0 := by
  norm_num [round2, roundHalfEven]

theorem round2_one : round2 1 = 1 := by
  norm_num [round2, roundHalfEven]

theorem round2_nonneg {q : ℚ} (h : 0 ≤ q) : 0 ≤ round2 q := by
  have := round2_mono h; rwa [round2_zero] at this

theorem round2_le_one {q : ℚ} (h : q ≤ 1) : round2 q ≤ 1 := by
  have := round2_mono h; rwa [round2_one] at this

/-! ## Risk-factor analysis (`YieldPredictor._analyze_risk_factors`) -/

/-- One emitted risk factor: its name and (rounded) severity.  The
`description` and `impact` strings of the source are presentation text
derived from the same data and are not modelled. -/
structure RiskFactor where
  factor : String
  severity : ℚ
deriving DecidableEq

/-- Embeds `(params["water_need"][0] + params["water_need"][1]) / 2 / 4`
(line 466): the per-month water need. -/
def monthlyWaterNeed (p : CropParams) : ℚ :=
  (p.water_need.1 + p.water_need.2) / 2 / 4

/-- The risk list of `_analyze_risk_factors` (lines 441-495) in emission
order, before the final severity sort.  Each severity is rounded to two
decimals exactly as `round(severity, 2)`. -/
def rawRisks (crop : String) (temp_avg temp_min temp_max precipitation
    humidity : ℚ) : List RiskFactor :=
  let params := cropParamsOrWheat crop
  let heat : List RiskFactor :=
    if params.heat_tolerance < temp_max then
      [⟨"Heat Stress", round2 (min 1 ((temp_max - params.heat_tolerance) / 10))⟩]
    else []
  let frost : List RiskFactor :=
    if temp_min < params.frost_tolerance then
      [⟨"Frost Damage", round2 (min 1 ((params.frost_tolerance - temp_min) / 10))⟩]
    else []
  let wn := monthlyWaterNeed params
  let drought : List RiskFactor :=
    if precipitation < wn * (1/2) then
      [⟨"Drought Stress", round2 (min 1 (1 - precipitation / (wn * (1/2))))⟩]
    else []
  let waterlog : List RiskFactor :=
    if wn * 2 < precipitation then
      [⟨"Waterlogging Risk", round2 (min 1 ((precipitation / wn - 2) / 2))⟩]
    else []
  let optTemp := (params.optimal_temp.1 + params.optimal_temp.2) / 2
  let subopt : List RiskFactor :=
    if 10 < |temp_avg - optTemp| then
      [⟨"Suboptimal Temperature", round2 (min 1 ((|temp_avg - optTemp| - 10) / 10))⟩]
    else []
  heat ++ frost ++ drought ++ waterlog ++ subopt

/-- Embeds `_analyze_risk_factors`: the emitted risks, stably sorted descending by
severity (`sorted(risks, key=lambda x: x["severity"], reverse=True)`,
line 497). -/
def analyzeRiskFactors (crop : String) (temp_avg temp_min temp_max
    precipitation humidity : ℚ) : List RiskFactor :=
  (rawRisks crop temp_avg temp_min temp_max precipitation humidity).mergeSort
    (fun a b => decide (b.severity ≤ a.severity))

/-! ## Recommendations (`YieldPredictor._generate_recommendations`) -/

def recHeat1 : String :=
  "Consider shade netting or mulching to reduce soil temperature"
def recHeat2 : String :=
  "Increase irrigation frequency during peak heat hours"
def recFrost1 : String :=
  "Apply frost blankets or row covers before cold nights"
def recFrost2 : String :=
  "Consider wind machines or overhead irrigation for frost protection"
def recDrought1 : String :=
  "Implement drip irrigation to maximize water efficiency"
def recDrought2 : String :=
  "Apply mulch to reduce evaporation"
def recDrought3 : String :=
  "Consider drought-resistant varieties for future planting"
def recWater1 : String :=
  "Improve field drainage systems"
def recWater2 : String :=
  "Reduce irrigation and allow soil to dry between watering"
def recGreenhouse : String :=
  "Consider greenhouse or high-tunnel cultivation"
def recPlantingDates : String :=
  "Adjust planting dates to optimize growing season"
def recFavorable : String :=
  "Conditions are favorable - maintain current management practices"
def recMonitor : String :=
  "Monitor weather forecasts for any sudden changes"

/-- The strings one risk contributes inside the loop of
`_generate_recommendations` (lines 509-534): the `if`/`elif` chain on the
factor name, with the `severity > 0.3` conjunct on every branch except
Suboptimal Temperature. -/
def recsFor (temp_avg : ℚ) (r : RiskFactor) : List String :=
  if r.factor = "Heat Stress" ∧ 3/10 < r.severity then [recHeat1, recHeat2]
  else if r.factor = "Frost Damage" ∧ 3/10 < r.severity then
    [recFrost1, recFrost2]
  else if r.factor = "Drought Stress" ∧ 3/10 < r.severity then
    [recDrought1, recDrought2, recDrought3]
  else if r.factor = "Waterlogging Risk" ∧ 3/10 < r.severity then
    [recWater1, recWater2]
  else if r.factor = "Suboptimal Temperature" then
    if temp_avg < 15 then [recGreenhouse] else [recPlantingDates]
  else []

/-- Embeds `_generate_recommendations` (lines 499-541): concatenate each risk's
contribution in list order, append the two general messages when the risk
list is empty, and truncate to 5. -/
def generateRecommendations (crop : String) (riskFactors : List RiskFactor)
    (temp_avg precipitation : ℚ) : List String :=
  let recs := riskFactors.flatMap (recsFor temp_avg)
  let recs2 :=
    if riskFactors.length = 0 then recs ++ [recFavorable, recMonitor] else recs
  recs2.take 5

/-! ## The prediction interval and `PredictionResult` -/

/-- Embeds `np.percentile(xs, q)` with numpy's default linear interpolation. -/
def percentile (xs : List ℚ) (q : ℚ) : ℚ :=
  let s := xs.mergeSort (fun a b => decide (a ≤ b))
  let pos := ((s.length : ℚ) - 1) * q / 100
  let i := (⌊pos⌋).toNat
  let lo := s.getD i 0
  let hi := s.getD (i + 1) lo
  lo + (pos - (i : ℚ)) * (hi - lo)

/-- The pooled bootstrap draws of `predict` (lines 313-319): each base
model's prediction is replicated `n_bootstrap // 3` times with additive
noise.  The Gaussian draws (`np.random.normal(0, predicted_yield * 0.05)`)
are modelled as explicit noise inputs, one inner list per base model. -/
def pooledDraws (basePreds : List ℚ) (noises : List (List ℚ)) : List ℚ :=
  (basePreds.zip noises).flatMap (fun pn => pn.2.map (fun e => pn.1 + e))

/-- The fields of the `PredictionResult` dataclass that the claims under
verification read (`model_metrics` and `feature_importance` belong to the
trained ensemble and are outside this embedding). -/
structure PredictionResult where
  crop : String
  predicted_yield : ℚ
  confidence_lower : ℚ
  confidence_upper : ℚ
  confidence_level : ℚ
  risk_factors : List RiskFactor
  recommendations : List String

/-- The result assembly of `YieldPredictor.predict` (lines 305-355), with
the fitted models abstracted into their outputs: `metaPred` is the
stacking ensemble's point prediction on the scenario's feature vector,
`basePreds` the three base models' predictions on it, and `noises` the
Gaussian draws.  Percentiles of the pooled draws give the interval, the
lower bound is clamped to 0, and every reported number passes through
`round(…, 2)`. -/
def predict (crop : String) (sc : Scenario) (metaPred : ℚ)
    (basePreds : List ℚ) (noises : List (List ℚ)) : PredictionResult :=
  let draws := pooledDraws basePreds noises
  let risks := analyzeRiskFactors crop sc.temp_avg sc.temp_min sc.temp_max
    sc.precipitation sc.humidity
  { crop := crop,
    predicted_yield := round2 metaPred,
    confidence_lower := round2 (max 0 (percentile draws (5/2))),
    confidence_upper := round2 (percentile draws (195/2)),
    confidence_level := 95/100,
    risk_factors := risks,
    recommendations :=
      generateRecommendations crop risks sc.temp_avg sc.precipitation }

/-! ## C3: the confidence interval -/

/-- A fixed demonstration scenario used by several concrete evaluations. -/
def scDemo : Scenario :=
  { temp_avg := 25, temp_min := 15, temp_max := 35, precipitation := 80,
    humidity := 60, solar_radiation := 20, latitude := 40, longitude := -90,
    month := 6, growing_days := 100, soil_quality := 7/10, wind_speed := 5 }

/-- Claim C3, counterexample: The interval is computed from the pooled
base-model draws only, so it need not contain the meta-model's point
estimate: with all three base models predicting 0 (all noise draws 0,
`n_bootstrap = 3`) and the stacking ensemble predicting 100, the returned
`confidence_upper` is 0, strictly below `predicted_yield = 100`. -/
theorem C3_interval_counterexample :
    (predict "wheat" scDemo 100 [0, 0, 0] [[0], [0], [0]]).confidence_upper <
      (predict "wheat" scDemo 100 [0, 0, 0] [[0], [0], [0]]).predicted_yield := by
  have hms : List.mergeSort [(0:ℚ), 0, 0] (fun a b => decide (a ≤ b)) =
      [0, 0, 0] := List.mergeSort_of_sorted (by simp)
  have h100 : round2 100 = 100 := by norm_num [round2, roundHalfEven]
  simp only [predict]
  norm_num [pooledDraws, percentile, hms, List.getD, round2_zero, h100]

/-- Claim C3, amended: For every scenario and model outputs,
`confidence_lower ≥ 0` always holds; the bracketing
`confidence_lower ≤ predicted_yield ≤ confidence_upper` holds exactly when
the clamped 2.5th and the 97.5th percentile of the pooled base-model draws
happen to bracket the point estimate — the code does not enforce this,
since the draws come from the base models while the point estimate comes
from the meta-model. -/
theorem C3_interval_amended (crop : String) (sc : Scenario) (metaPred : ℚ)
    (basePreds : List ℚ) (noises : List (List ℚ)) :
    0 ≤ (predict crop sc metaPred basePreds noises).confidence_lower
    ∧ (max 0 (percentile (pooledDraws basePreds noises) (5/2)) ≤ metaPred →
        metaPred ≤ percentile (pooledDraws basePreds noises) (195/2) →
        (predict crop sc metaPred basePreds noises).confidence_lower ≤
            (predict crop sc metaPred basePreds noises).predicted_yield
        ∧ (predict crop sc metaPred basePreds noises).predicted_yield ≤
            (predict crop sc metaPred basePreds noises).confidence_upper) := by
  simp only [predict]
  exact ⟨round2_nonneg (le_max_left 0 _),
    fun h1 h2 => ⟨round2_mono h1, round2_mono h2⟩⟩

/-- Witness for the amended C3 at concrete model outputs where the draws
do bracket the point estimate. -/
theorem C3_interval_witness :
    0 ≤ (predict "wheat" scDemo 100 [100, 100, 100]
          [[0], [0], [0]]).confidence_lower
    ∧ ((predict "wheat" scDemo 100 [100, 100, 100]
          [[0], [0], [0]]).confidence_lower ≤
        (predict "wheat" scDemo 100 [100, 100, 100]
          [[0], [0], [0]]).predicted_yield
      ∧ (predict "wheat" scDemo 100 [100, 100, 100]
          [[0], [0], [0]]).predicted_yield ≤
        (predict "wheat" scDemo 100 [100, 100, 100]
          [[0], [0], [0]]).confidence_upper) :=
  ⟨(C3_interval_amended "wheat" scDemo 100 [100, 100, 100]
      [[0], [0], [0]]).1,
   (C3_interval_amended "wheat" scDemo 100 [100, 100, 100]
      [[0], [0], [0]]).2
    (by
      have hms : List.mergeSort [(100:ℚ), 100, 100]
          (fun a b => decide (a ≤ b)) = [100, 100, 100] :=
        List.mergeSort_of_sorted (by simp)
      norm_num [pooledDraws, percentile, hms, List.getD])
    (by
      have hms : List.mergeSort [(100:ℚ), 100, 100]
          (fun a b => decide (a ≤ b)) = [100, 100, 100] :=
        List.mergeSort_of_sorted (by simp)
      norm_num [pooledDraws, percentile, hms, List.getD])⟩

/-! ## C7: severities lie in [0, 1] and risks are sorted descending -/

/-- Every crop's (possibly wheat-defaulted) monthly water need is
positive. -/
theorem monthlyWaterNeed_pos (crop : String) :
    0 < monthlyWaterNeed (cropParamsOrWheat crop) := by
  unfold cropParamsOrWheat cropParamsGet
  split_ifs <;>
    norm_num [monthlyWaterNeed, wheatParams, cornParams, riceParams,
      soybeanParams, potatoParams, cottonParams, sugarcaneParams]

/-- Every risk emitted by the analysis, before sorting, has severity in
[0, 1]: under each branch's guard the raw severity is positive and the
`min(1.0, ·)` cap and two-decimal rounding keep it in the unit
interval. -/
theorem rawRisks_severity_bounds {crop : String}
    {tavg tmin tmax precip hum : ℚ} {r : RiskFactor}
    (hr : r ∈ rawRisks crop tavg tmin tmax precip hum) :
    0 ≤ r.severity ∧ r.severity ≤ 1 := by
  have hwn := monthlyWaterNeed_pos crop
  have bounds : ∀ x : ℚ, 0 ≤ x →
      0 ≤ round2 (min 1 x) ∧ round2 (min 1 x) ≤ 1 := fun x hx =>
    ⟨round2_nonneg (le_min (by norm_num) hx), round2_le_one (min_le_left 1 x)⟩
  unfold rawRisks at hr
  simp only [List.mem_append] at hr
  rcases hr with ((((h | h) | h) | h) | h) <;> split at h <;>
      simp only [List.mem_singleton, List.not_mem_nil] at h <;> subst h
  all_goals rename_i hguard
  · exact bounds _ (div_nonneg (by linarith) (by norm_num))
  · exact bounds _ (div_nonneg (by linarith) (by norm_num))
  · refine bounds _ ?_
    have hlt : precip / (monthlyWaterNeed (cropParamsOrWheat crop) * (1/2)) < 1 :=
      (div_lt_one (by linarith)).mpr hguard
    linarith
  · refine bounds _ ?_
    have hge : (2:ℚ) ≤ precip / monthlyWaterNeed (cropParamsOrWheat crop) :=
      (le_div_iff₀ hwn).mpr (by linarith)
    linarith
  · exact bounds _ (div_nonneg (by linarith) (by norm_num))

/-- Claim C7: For every scenario and crop string, every risk factor emitted
by `_analyze_risk_factors` has severity in [0, 1]; the returned list is
sorted descending by severity; and in particular a scenario with
`temp_max = 60` for wheat (`heat_tolerance = 32`) emits a Heat Stress risk
with severity exactly 1 (capped by `min(1.0, ·)`). -/
theorem C7_risk_severity_clamped_and_sorted (crop : String)
    (tavg tmin tmax precip hum : ℚ) :
    (∀ r ∈ analyzeRiskFactors crop tavg tmin tmax precip hum,
        0 ≤ r.severity ∧ r.severity ≤ 1)
    ∧ List.Pairwise (fun a b : RiskFactor => b.severity ≤ a.severity)
        (analyzeRiskFactors crop tavg tmin tmax precip hum)
    ∧ (⟨"Heat Stress", 1⟩ : RiskFactor) ∈
        analyzeRiskFactors "wheat" tavg tmin 60 precip hum := by
  refine ⟨?_, ?_, ?_⟩
  · intro r hr
    rw [analyzeRiskFactors, List.mem_mergeSort] at hr
    exact rawRisks_severity_bounds hr
  · refine List.Pairwise.imp (fun h => of_decide_eq_true h)
      (List.sorted_mergeSort ?_ ?_ _)
    · intro a b c hab hbc
      simp only [decide_eq_true_eq] at *
      exact le_trans hbc hab
    · intro a b
      simp only [Bool.or_eq_true, decide_eq_true_eq]
      exact le_total _ _
  · rw [analyzeRiskFactors, List.mem_mergeSort]
    have h1 : round2 (min 1 (((60:ℚ) - 32) / 10)) = 1 := by
      norm_num [round2, roundHalfEven]
    unfold rawRisks
    simp only [cropParamsOrWheat, cropParamsGet, if_pos rfl,
      Option.getD_some, wheatParams, List.mem_append]
    norm_num [h1]
    exact Or.inl (Or.inl (Or.inl (Or.inl round2_one.symm)))

/-- Witness for C7: the capped Heat Stress severity at the concrete
`temp_max = 60` wheat scenario is a member and lies in [0, 1]. -/
theorem C7_witness :
    0 ≤ (⟨"Heat Stress", 1⟩ : RiskFactor).severity ∧
      (⟨"Heat Stress", 1⟩ : RiskFactor).severity ≤ 1 :=
  (C7_risk_severity_clamped_and_sorted "wheat" 15 5 60 300 60).1 _
    (C7_risk_severity_clamped_and_sorted "wheat" 15 5 60 300 60).2.2

/-! ## C6: the recommendation list -/

/-- Claim C6, counterexample: The claim says an empty set of triggering
risks yields exactly one affirmative message and that each triggering risk
type contributes 1-2 strings.  In the code, an empty risk list appends
*two* general messages, and a triggering Drought Stress risk contributes
*three* strings. -/
theorem C6_recommendations_counterexample :
    (generateRecommendations "wheat" [] 20 100).length = 2
    ∧ (generateRecommendations "wheat" [⟨"Drought Stress", 1⟩] 20 100).length
        = 3 := by
  constructor <;> norm_num [generateRecommendations, recsFor] <;> decide

/-- The per-risk contribution of the recommendation loop, as the amended
spec describes it: Heat Stress, Frost Damage and Waterlogging Risk above
severity 0.3 contribute two fixed strings each, Drought Stress above 0.3
contributes three, Suboptimal Temperature contributes one (cool- or
warm-climate variant) regardless of its severity, and any other factor
contributes nothing. -/
def specContribution (temp_avg : ℚ) (r : RiskFactor) : List String :=
  if r.factor = "Heat Stress" then
    (if 3/10 < r.severity then [recHeat1, recHeat2] else [])
  else if r.factor = "Frost Damage" then
    (if 3/10 < r.severity then [recFrost1, recFrost2] else [])
  else if r.factor = "Drought Stress" then
    (if 3/10 < r.severity then [recDrought1, recDrought2, recDrought3] else [])
  else if r.factor = "Waterlogging Risk" then
    (if 3/10 < r.severity then [recWater1, recWater2] else [])
  else if r.factor = "Suboptimal Temperature" then
    (if temp_avg < 15 then [recGreenhouse] else [recPlantingDates])
  else []

/-- The loop body's `if`/`elif` chain agrees with the per-factor
contribution map. -/
theorem recsFor_eq_specContribution (temp_avg : ℚ) (r : RiskFactor) :
    recsFor temp_avg r = specContribution temp_avg r := by
  unfold recsFor specContribution
  split_ifs <;> simp_all

theorem flatMap_recsFor_eq (temp_avg : ℚ) (risks : List RiskFactor) :
    risks.flatMap (recsFor temp_avg) =
      risks.flatMap (specContribution temp_avg) := by
  induction risks with
  | nil => rfl
  | cons r rest ih =>
      simp only [List.flatMap_cons, recsFor_eq_specContribution, ih]

/-- Claim C6, amended: The recommendation list is capped at 5 entries; when
the risk list is empty it is exactly the two general messages; otherwise
it is the concatenation, in risk-severity order, of each risk's
contribution per `specContribution` (so 2 strings for Heat Stress, Frost
Damage and Waterlogging Risk above the 0.3 threshold, 3 for Drought
Stress, and 1 for Suboptimal Temperature at any severity), truncated to 5.
In particular a below-threshold, non-Suboptimal risk list yields an empty
recommendation list, not an affirmative message. -/
theorem C6_recommendations_amended (crop : String) (risks : List RiskFactor)
    (tavg precip : ℚ) :
    (generateRecommendations crop risks tavg precip).length ≤ 5
    ∧ (risks = [] →
        generateRecommendations crop risks tavg precip =
          [recFavorable, recMonitor])
    ∧ (risks ≠ [] →
        generateRecommendations crop risks tavg precip =
          (risks.flatMap (specContribution tavg)).take 5) := by
  refine ⟨?_, ?_, ?_⟩
  · exact List.length_take_le 5 _
  · rintro rfl
    simp [generateRecommendations]
  · intro hne
    have hlen : risks.length ≠ 0 := by
      simpa [List.length_eq_zero] using hne
    simp [generateRecommendations, hlen, flatMap_recsFor_eq]

/-- Witness for the amended C6: one above-threshold Drought Stress risk
contributes its three strings and stays under the cap; the empty risk list
gives the two general messages. -/
theorem C6_recommendations_witness :
    generateRecommendations "wheat" [⟨"Drought Stress", 1⟩] 20 100 =
      (([⟨"Drought Stress", 1⟩] : List RiskFactor).flatMap
        (specContribution 20)).take 5
    ∧ generateRecommendations "wheat" [] 20 100 = [recFavorable, recMonitor] :=
  ⟨(C6_recommendations_amended "wheat" [⟨"Drought Stress", 1⟩] 20 100).2.2
      (by simp),
   (C6_recommendations_amended "wheat" [] 20 100).2.1 rfl⟩

/-! ## C4: unsupported crops -/

/-- The HTTP 400 raised by the `/predict` route of `ml_prediction.py`
(lines 197-202) when the (lowercased) crop is not a `CROP_PARAMETERS`
key.  This check lives in the API layer only; `YieldPredictor.predict`
itself performs no crop validation. -/
inductive ApiError where
  | unsupportedCrop
deriving DecidableEq

/-- The crop validation of the `/predict` endpoint, on the already
lowercased crop string. -/
def predictEndpointCheck (crop : String) : Except ApiError Unit :=
  if (cropParamsGet crop).isSome then Except.ok ()
  else Except.error ApiError.unsupportedCrop

/-- Risk analysis only reads the crop through the parameter-table lookup
with wheat fallback. -/
theorem analyzeRiskFactors_congr {c1 c2 : String}
    (h : cropParamsOrWheat c1 = cropParamsOrWheat c2)
    (tavg tmin tmax precip hum : ℚ) :
    analyzeRiskFactors c1 tavg tmin tmax precip hum =
      analyzeRiskFactors c2 tavg tmin tmax precip hum := by
  unfold analyzeRiskFactors rawRisks
  rw [h]

/-- Claim C4, counterexample: `predict` raises nothing for the unknown crop
"dragonfruit": `create_prediction_features` maps it to crop code 0 and
`_analyze_risk_factors` silently substitutes the wheat parameters, so a
full prediction (point estimate included) is produced. -/
theorem C4_unsupported_crop_counterexample :
    cropParamsOrWheat "dragonfruit" = wheatParams
    ∧ cropIndex "dragonfruit" = 0
    ∧ (predict "dragonfruit" scDemo 100 [0, 0, 0]
          [[0], [0], [0]]).risk_factors =
        (predict "wheat" scDemo 100 [0, 0, 0] [[0], [0], [0]]).risk_factors
    ∧ (predict "dragonfruit" scDemo 100 [0, 0, 0]
          [[0], [0], [0]]).predicted_yield = round2 100 := by
  refine ⟨by decide, by decide, ?_, rfl⟩
  simp only [predict]
  exact analyzeRiskFactors_congr (by decide) _ _ _ _ _

/-- Claim C4, amended: For every crop string absent from the parameter
table, the Unsupported-crop rejection happens in the HTTP endpoint (as an
HTTP 400) before `predict` is called; `predict` itself never raises — it
maps the unknown crop to crop code 0 and the wheat parameters and carries
model inference through to a normal result. -/
theorem C4_unsupported_crop_amended (crop : String) (sc : Scenario)
    (metaPred : ℚ) (basePreds : List ℚ) (noises : List (List ℚ))
    (h : cropParamsGet crop = none) :
    predictEndpointCheck crop = Except.error ApiError.unsupportedCrop
    ∧ cropIndex crop = 0
    ∧ cropParamsOrWheat crop = wheatParams
    ∧ (predict crop sc metaPred basePreds noises).risk_factors =
        (predict "wheat" sc metaPred basePreds noises).risk_factors
    ∧ (predict crop sc metaPred basePreds noises).predicted_yield =
        round2 metaPred := by
  have hwheat : cropParamsOrWheat crop = wheatParams := by
    rw [cropParamsOrWheat, h]; rfl
  refine ⟨?_, ?_, hwheat, ?_, rfl⟩
  · rw [predictEndpointCheck, h]; rfl
  · unfold cropParamsGet at h
    unfold cropIndex
    split_ifs at h ⊢ <;> simp_all
  · simp only [predict]
    exact analyzeRiskFactors_congr (by rw [hwheat]; decide) _ _ _ _ _

/-- Witness for the amended C4 at the concrete crop "dragonfruit". -/
theorem C4_unsupported_crop_witness :
    predictEndpointCheck "dragonfruit" = Except.error ApiError.unsupportedCrop
    ∧ cropIndex "dragonfruit" = 0
    ∧ cropParamsOrWheat "dragonfruit" = wheatParams
    ∧ (predict "dragonfruit" scDemo 100 [90, 100, 110]
          [[0], [0], [0]]).risk_factors =
        (predict "wheat" scDemo 100 [90, 100, 110]
          [[0], [0], [0]]).risk_factors
    ∧ (predict "dragonfruit" scDemo 100 [90, 100, 110]
          [[0], [0], [0]]).predicted_yield = round2 100 :=
  C4_unsupported_crop_amended "dragonfruit" scDemo 100 [90, 100, 110]
    [[0], [0], [0]] rfl

/-! ## C5: training rejects nothing -/

/-- The spec's training failure taxonomy.  No code path of
`YieldPredictor.train` produces it. -/
inductive TrainError where
  | insufficientData
deriving DecidableEq

/-- Embeds `YieldPredictor.train` (lines 117-241) up to the model fitting, with
the sklearn/xgboost/lightgbm fits abstracted into their row counts: the
source validates nothing about the table size — it engineers features
with a fresh `fit_transform` and hands `ceil(0.2 · n)` rows to the test
split (`train_test_split(..., test_size=0.2)`) and the rest to training.
The error channel exists only to express the spec's InsufficientData
failure; no branch returns it. -/
def train (ops : NumOps) (data : DataFrame) :
    Except TrainError (FeatureEngineer × ℕ × ℕ) :=
  let r := fitTransform ops engineer0 data
  let n := data.temp_avg.length
  let nTest := (n + 4) / 5
  Except.ok (r.1, n - nTest, nTest)

/-- A 10-row training table (far below the spec's ~50-row minimum). -/
def df10 : DataFrame :=
  { crop_id := List.replicate 10 0, temp_avg := List.replicate 10 20,
    temp_min := List.replicate 10 10, temp_max := List.replicate 10 30,
    precipitation := List.replicate 10 80, humidity := List.replicate 10 60,
    solar_radiation := List.replicate 10 20, wind_speed := List.replicate 10 5,
    latitude := List.replicate 10 40, longitude := List.replicate 10 (-90),
    month := List.replicate 10 6, soil_quality := List.replicate 10 1,
    growing_days := List.replicate 10 100 }

/-- Claim C5, counterexample: Training on a 10-row table does not fail with
InsufficientData: it proceeds to fit (8 training rows, 2 test rows). -/
theorem C5_insufficient_data_counterexample :
    df10.temp_avg.length = 10
    ∧ train qops df10 ≠ Except.error TrainError.insufficientData := by
  exact ⟨by decide, by simp [train]⟩

/-- Claim C5, amended: `train` performs no minimum-row validation at all:
every table, however small, passes straight to feature engineering and
the 80/20 split; an InsufficientData rejection does not exist in the
code. -/
theorem C5_train_never_rejects (ops : NumOps) (data : DataFrame) :
    ∃ fe nTrain nTest, train ops data = Except.ok (fe, nTrain, nTest) :=
  ⟨_, _, _, rfl⟩

/-! ## C8: missing artifact, lazy training -/

/-- The predictor state the store round-trips (only the trained flag is
needed by the claims; the models and engineer ride along in the real
artifact). -/
structure PredictorState where
  is_trained : Bool
deriving DecidableEq

/-- Embeds `YieldPredictor.load` (lines 592-612): when nothing exists at the
artifact path it prints a warning and returns `False` — a total function,
no exception; otherwise it restores the saved state and returns `True`. -/
def loadModel (s : PredictorState) (artifact : Option PredictorState) :
    PredictorState × Bool :=
  match artifact with
  | none => (s, false)
  | some a => (a, true)

/-- How `predict` obtained a usable model. -/
inductive ModelSource where
  | alreadyTrained
  | loadedFromStore
  | freshlyTrained
deriving DecidableEq

/-- The guard at the top of `YieldPredictor.predict` (lines 282-286):
`if not self.is_trained: self.load(); if not self.is_trained:
self.train()` — training sets `is_trained` (line 236). -/
def ensureTrained (s : PredictorState) (artifact : Option PredictorState) :
    PredictorState × ModelSource :=
  if s.is_trained then (s, ModelSource.alreadyTrained)
  else
    let s1 := (loadModel s artifact).1
    if s1.is_trained then (s1, ModelSource.loadedFromStore)
    else ({ is_trained := true }, ModelSource.freshlyTrained)

/-- Claim C8: With no artifact in the store, `load` returns the "no model"
result `False` (it is a total function — no exception), and a subsequent
`predict` on the still-untrained predictor reaches the model through a
fresh training run, ending in a trained state, never serving the
untrained model. -/
theorem C8_missing_artifact_lazy_train (s : PredictorState)
    (h : s.is_trained = false) :
    loadModel s none = (s, false)
    ∧ ensureTrained s none =
        ({ is_trained := true }, ModelSource.freshlyTrained)
    ∧ (ensureTrained s none).1.is_trained = true := by
  refine ⟨rfl, ?_, ?_⟩ <;> simp [ensureTrained, loadModel, h]

/-- Witness for C8 at the freshly constructed, untrained predictor. -/
theorem C8_missing_artifact_witness :
    loadModel { is_trained := false } none = ({ is_trained := false }, false)
    ∧ ensureTrained { is_trained := false } none =
        ({ is_trained := true }, ModelSource.freshlyTrained)
    ∧ (ensureTrained { is_trained := false } none).1.is_trained = true :=
  C8_missing_artifact_lazy_train { is_trained := false } rfl

end NasaAgroSim
